import Mathlib

/-!
Shallow embedding of the data-access/caching layer of the jornalk1 news site
(DatabaseService in src/utils/db-service.ts), the environment switches in
src/pages/api/mock-mode.ts, and the POST branch of the /api/news route handler
(src/pages/api/news/index.ts).

The backing store (the opaque executeQuery from ./db) is modelled as a
relational state `DB` together with the semantics of each concrete SQL text the
service issues; a Boolean failure flag per executeQuery call models a raised
backing-store error. Each service method becomes a pure function from the
service state (cache), the store state, the current clock value and the failure
flags to a result, the new cache and the new store, plus a count of
backing-store calls actually issued.
-/

namespace JornalK1

/-! ## Relational store (tables behind executeQuery) -/

/-- A row of the news table. `is_featured` is stored as 0/1 in SQL and modelled
as Bool; timestamps are clock values (milliseconds). -/
structure NewsRow where
  id : Nat
  title : String
  slug : String
  content : String
  excerpt : String
  image_url : String
  category_id : Nat
  author_id : Nat
  status : String
  is_featured : Bool
  view_count : Nat
  created_at : Nat
  updated_at : Nat
deriving Repr, DecidableEq

/-- A row of the categories table. -/
structure CategoryRow where
  id : Nat
  name : String
  slug : String
  description : Option String
deriving Repr, DecidableEq

/-- A row of the users table (only the joined name matters here). -/
structure UserRow where
  id : Nat
  name : String
deriving Repr, DecidableEq

/-- The relational store: the three tables the service queries, plus the
auto-increment counter producing insertId values. -/
structure DB where
  news : List NewsRow
  categories : List CategoryRow
  users : List UserRow
  nextId : Nat
deriving Repr, DecidableEq

/-- Result shape of the slug/list selects: news columns plus the joined
category_name and author_name (the NewsArticle interface of ./db). -/
structure NewsArticle where
  id : Nat
  title : String
  slug : String
  content : String
  excerpt : String
  image_url : String
  category_id : Nat
  author_id : Nat
  status : String
  is_featured : Bool
  view_count : Nat
  created_at : Nat
  updated_at : Nat
  category_name : String
  author_name : String
deriving Repr, DecidableEq

/-- Result shape of the categories query (CategoryWithCount in db-service.ts). -/
structure CategoryWithCount where
  id : Nat
  name : String
  slug : String
  description : Option String
  news_count : Nat
deriving Repr, DecidableEq

/-- Input payload of createNews/updateNews (NewsData in ./db). -/
structure NewsData where
  title : String
  slug : String
  content : String
  excerpt : String
  imageUrl : String
  categoryId : Nat
  authorId : Nat
  status : String
  isFeatured : Bool
deriving Repr, DecidableEq

/-! ## Semantics of the SQL texts issued by the service -/

/-- Substring containment, modelling the SQL pattern match
column LIKE CONCAT(percent, q, percent) with a case-insensitive collation. -/
def strContains (s pat : String) : Bool :=
  decide (pat.toLower.data <:+: s.toLower.data)

/-- INNER JOIN of one news row with categories (on category_id) and users
(on author_id): absent on a dangling foreign key, as an inner join drops it. -/
def joinRow (db : DB) (n : NewsRow) : Option NewsArticle :=
  match db.categories.find? (fun c => c.id == n.category_id),
        db.users.find? (fun u => u.id == n.author_id) with
  | some c, some u =>
      some { id := n.id, title := n.title, slug := n.slug, content := n.content,
             excerpt := n.excerpt, image_url := n.image_url,
             category_id := n.category_id, author_id := n.author_id,
             status := n.status, is_featured := n.is_featured,
             view_count := n.view_count, created_at := n.created_at,
             updated_at := n.updated_at, category_name := c.name,
             author_name := u.name }
  | _, _ => none

/-- SELECT n.*, c.name, u.name FROM news n JOIN categories c JOIN users u
WHERE n.slug = ? AND n.status = 'published'. -/
def selectNewsBySlug (db : DB) (slug : String) : List NewsArticle :=
  (db.news.filter (fun n => n.slug == slug && n.status == "published")).filterMap
    (joinRow db)

/-- The TypeScript truthiness test applied to the optional searchQuery:
undefined and the empty string add no search predicate. -/
def matchesSearch (q : Option String) (n : NewsRow) : Bool :=
  match q with
  | none => true
  | some s =>
      if s == "" then true
      else strContains n.title s || strContains n.content s || strContains n.excerpt s

/-- The WHERE clause shared by the list query and its count query:
status = 'published', AND-ed optional category, featured and search predicates. -/
def newsFilter (catId : Option Nat) (featured : Bool) (q : Option String)
    (n : NewsRow) : Bool :=
  n.status == "published"
    && (match catId with | none => true | some c => n.category_id == c)
    && (!featured || n.is_featured)
    && matchesSearch q n

/-- Insertion step for sorting by created_at descending (ORDER BY created_at DESC). -/
def insertByCreatedDesc (a : NewsArticle) : List NewsArticle → List NewsArticle
  | [] => [a]
  | b :: bs =>
      if a.created_at ≤ b.created_at then b :: insertByCreatedDesc a bs
      else a :: b :: bs

/-- Sort by created_at descending. -/
def sortByCreatedDesc : List NewsArticle → List NewsArticle
  | [] => []
  | a :: as => insertByCreatedDesc a (sortByCreatedDesc as)

/-- The list query: filtered join ordered by created_at DESC, LIMIT ? OFFSET ?. -/
def listSelect (db : DB) (catId : Option Nat) (featured : Bool) (q : Option String)
    (limit offset : Nat) : List NewsArticle :=
  (((sortByCreatedDesc
      ((db.news.filter (newsFilter catId featured q)).filterMap (joinRow db))).drop
        offset).take limit)

/-- The count query: SELECT COUNT(*) FROM news n WHERE ... — the same
predicates, but no joins (the SQL count text has none). -/
def countNews (db : DB) (catId : Option Nat) (featured : Bool)
    (q : Option String) : Nat :=
  (db.news.filter (newsFilter catId featured q)).length

/-- Insertion step for sorting categories by name ascending (ORDER BY c.name). -/
def insertByName (a : CategoryWithCount) :
    List CategoryWithCount → List CategoryWithCount
  | [] => [a]
  | b :: bs =>
      match compare a.name b.name with
      | Ordering.gt => b :: insertByName a bs
      | _ => a :: b :: bs

/-- Sort categories by name ascending. -/
def sortByName : List CategoryWithCount → List CategoryWithCount
  | [] => []
  | a :: as => insertByName a (sortByName as)

/-- SELECT c.*, COUNT(n.id) FROM categories c LEFT JOIN news n ON
c.id = n.category_id AND n.status = 'published' GROUP BY c.id ORDER BY c.name:
every category appears, counting its published articles (0 when none). -/
def categoriesWithCount (db : DB) : List CategoryWithCount :=
  sortByName (db.categories.map (fun c =>
    { id := c.id, name := c.name, slug := c.slug, description := c.description,
      news_count := (db.news.filter
        (fun n => n.category_id == c.id && n.status == "published")).length }))

/-- INSERT INTO news ... VALUES (..., NOW(), NOW()): appends a row with the
next auto-increment id and server-side timestamps, returning (store, insertId).
view_count takes the column default 0. -/
def insertNews (db : DB) (d : NewsData) (now : Nat) : DB × Nat :=
  ({ db with
      news := db.news ++
        [{ id := db.nextId, title := d.title, slug := d.slug,
           content := d.content, excerpt := d.excerpt, image_url := d.imageUrl,
           category_id := d.categoryId, author_id := d.authorId,
           status := d.status, is_featured := d.isFeatured, view_count := 0,
           created_at := now, updated_at := now }],
      nextId := db.nextId + 1 },
    db.nextId)

/-- UPDATE news SET title = ?, ..., updated_at = NOW() WHERE id = ?:
replaces the mutable fields (author_id is not in the SET list) on every row
with that id, returning (store, affectedRows). -/
def updateNewsRows (db : DB) (i : Nat) (d : NewsData) (now : Nat) : DB × Nat :=
  ({ db with
      news := db.news.map (fun n =>
        if n.id == i then
          { n with title := d.title, slug := d.slug, content := d.content,
                   excerpt := d.excerpt, image_url := d.imageUrl,
                   category_id := d.categoryId, status := d.status,
                   is_featured := d.isFeatured, updated_at := now }
        else n) },
    (db.news.filter (fun n => n.id == i)).length)

/-- DELETE FROM news WHERE id = ?: removes every row with that id,
returning (store, affectedRows). -/
def deleteNewsRows (db : DB) (i : Nat) : DB × Nat :=
  ({ db with news := db.news.filter (fun n => n.id != i) },
    (db.news.filter (fun n => n.id == i)).length)

/-! ## The cache -/

/-- The heterogeneous payloads the service stores under its untyped cache
(data: unknown in the TypeScript). -/
inductive CachePayload where
  | newsItem : Option NewsArticle → CachePayload
  | newsList : List NewsArticle × Nat → CachePayload
  | cats : List CategoryWithCount → CachePayload
deriving Repr, DecidableEq

/-- One cache slot: the stored payload and its insertion timestamp. -/
structure CacheEntry where
  data : CachePayload
  timestamp : Nat
deriving Repr, DecidableEq

/-- The cache map, keyed by the string cache keys the service builds. -/
abbrev Cache := List (String × CacheEntry)

/-- CACHE_TTL = 1000 * 60 * 5 milliseconds. -/
def CACHE_TTL : Nat := 1000 * 60 * 5

/-- isCacheValid: the key exists and now - timestamp < CACHE_TTL. (With a
monotone clock the subtraction never underflows; truncated subtraction agrees
with the JavaScript comparison also when it would, since a negative difference
and 0 are both below the TTL.) -/
def isCacheValid (cache : Cache) (now : Nat) (key : String) : Bool :=
  match cache.lookup key with
  | none => false
  | some e => now - e.timestamp < CACHE_TTL

/-- this.cache[cacheKey] = \x7b data, timestamp: Date.now() \x7d. -/
def cacheSet (cache : Cache) (key : String) (payload : CachePayload)
    (now : Nat) : Cache :=
  (key, { data := payload, timestamp := now }) :: cache.filter (fun kv => kv.1 != key)

/-- clearCache: this.cache = \x7b\x7d. -/
def clearCache (_cache : Cache) : Cache := []

/-- The unchecked cast of a cached payload back to NewsArticle | null. -/
def CachePayload.asNewsItem : CachePayload → Option NewsArticle
  | .newsItem n => n
  | _ => none

/-- The unchecked cast of a cached payload back to a news/total pair. -/
def CachePayload.asNewsList : CachePayload → List NewsArticle × Nat
  | .newsList r => r
  | _ => ([], 0)

/-- The unchecked cast of a cached payload back to CategoryWithCount[]. -/
def CachePayload.asCats : CachePayload → List CategoryWithCount
  | .cats l => l
  | _ => []

/-! ## The service methods -/

/-- Outcome of a read method: the returned value, the cache and store after the
call, and how many backing-store calls (executeQuery invocations) it issued. -/
structure ReadResult (α : Type) where
  ret : α
  cache : Cache
  db : DB
  queries : Nat
deriving Repr

/-- Outcome of a write method: Except models the TypeScript throw (the catch
blocks of the write methods log and rethrow), plus the cache and store after. -/
structure WriteResult (α : Type) where
  ret : Except Unit α
  cache : Cache
  db : DB
deriving Repr

/-- incrementViewCount: UPDATE news SET view_count = view_count + 1 WHERE
id = ?, with its own try/catch — a backing-store failure is swallowed and the
store is left unchanged. -/
def incrementViewCount (db : DB) (newsId : Nat) (qFails : Bool) : DB :=
  if qFails then db
  else { db with
    news := db.news.map (fun n =>
      if n.id == newsId then { n with view_count := n.view_count + 1 } else n) }

/-- getNewsBySlug: on a valid cache entry return it; otherwise run the select
(selectFails models executeQuery raising, caught as null), cache the head row
or null, and increment the view count when a row was found. -/
def getNewsBySlug (cache : Cache) (db : DB) (now : Nat) (slug : String)
    (selectFails incFails : Bool) : ReadResult (Option NewsArticle) :=
  let cacheKey := "news_" ++ slug
  if isCacheValid cache now cacheKey then
    { ret := ((cache.lookup cacheKey).map (fun e => e.data.asNewsItem)).getD none,
      cache := cache, db := db, queries := 0 }
  else if selectFails then
    { ret := none, cache := cache, db := db, queries := 1 }
  else
    let result := selectNewsBySlug db slug
    let news := result.head?
    let cache1 := cacheSet cache cacheKey (CachePayload.newsItem news) now
    match news with
    | some a =>
        { ret := news, cache := cache1,
          db := incrementViewCount db a.id incFails, queries := 2 }
    | none => { ret := news, cache := cache1, db := db, queries := 1 }

/-- The options object of getNewsList; none models an absent property. -/
structure ListOptions where
  limit : Option Nat
  offset : Option Nat
  categoryId : Option Nat
  featured : Option Bool
  searchQuery : Option String
deriving Repr, DecidableEq

/-- String interpolation of a possibly-undefined number. -/
def optNatStr : Option Nat → String
  | none => "undefined"
  | some n => toString n

/-- String interpolation of a possibly-undefined string. -/
def optStrStr : Option String → String
  | none => "undefined"
  | some s => s

/-- String interpolation of a boolean. -/
def boolStr (b : Bool) : String := if b then "true" else "false"

/-- The cache key news_list_(limit)_(offset)_(categoryId)_(featured)_(searchQuery),
built after the destructuring defaults limit=10, offset=0, featured=false. -/
def listCacheKey (o : ListOptions) : String :=
  "news_list_" ++ toString (o.limit.getD 10) ++ "_" ++ toString (o.offset.getD 0)
    ++ "_" ++ optNatStr o.categoryId ++ "_" ++ boolStr (o.featured.getD false)
    ++ "_" ++ optStrStr o.searchQuery

/-- getNewsList: cached result when valid; otherwise the list select then the
count query (either failing is caught and returns the empty page with total 0
and no cache write), caching and returning the fresh pair. -/
def getNewsList (cache : Cache) (db : DB) (now : Nat) (o : ListOptions)
    (selectFails countFails : Bool) : ReadResult (List NewsArticle × Nat) :=
  let limit := o.limit.getD 10
  let offset := o.offset.getD 0
  let featured := o.featured.getD false
  let cacheKey := listCacheKey o
  if isCacheValid cache now cacheKey then
    { ret := ((cache.lookup cacheKey).map (fun e => e.data.asNewsList)).getD ([], 0),
      cache := cache, db := db, queries := 0 }
  else if selectFails then
    { ret := ([], 0), cache := cache, db := db, queries := 1 }
  else if countFails then
    { ret := ([], 0), cache := cache, db := db, queries := 2 }
  else
    let news := listSelect db o.categoryId featured o.searchQuery limit offset
    let total := countNews db o.categoryId featured o.searchQuery
    let result := (news, total)
    { ret := result, cache := cacheSet cache cacheKey (CachePayload.newsList result) now,
      db := db, queries := 2 }

/-- getCategories: cached when valid; otherwise the grouped count query
(failure caught as the empty list, no cache write), cached and returned. -/
def getCategories (cache : Cache) (db : DB) (now : Nat) (qFails : Bool) :
    ReadResult (List CategoryWithCount) :=
  let cacheKey := "categories"
  if isCacheValid cache now cacheKey then
    { ret := ((cache.lookup cacheKey).map (fun e => e.data.asCats)).getD [],
      cache := cache, db := db, queries := 0 }
  else if qFails then
    { ret := [], cache := cache, db := db, queries := 1 }
  else
    let cats := categoriesWithCount db
    { ret := cats, cache := cacheSet cache cacheKey (CachePayload.cats cats) now,
      db := db, queries := 1 }

/-- createNews: the insert, then clearCache, then return insertId; on a
backing-store failure the catch rethrows before clearCache runs, so cache and
store are unchanged. -/
def createNews (cache : Cache) (db : DB) (now : Nat) (d : NewsData)
    (qFails : Bool) : WriteResult Nat :=
  if qFails then { ret := Except.error (), cache := cache, db := db }
  else
    let r := insertNews db d now
    { ret := Except.ok r.2, cache := clearCache cache, db := r.1 }

/-- updateNews: the update, then clearCache, then affectedRows > 0; on failure
the catch rethrows before clearCache runs. -/
def updateNews (cache : Cache) (db : DB) (now : Nat) (i : Nat) (d : NewsData)
    (qFails : Bool) : WriteResult Bool :=
  if qFails then { ret := Except.error (), cache := cache, db := db }
  else
    let r := updateNewsRows db i d now
    { ret := Except.ok (decide (0 < r.2)), cache := clearCache cache, db := r.1 }

/-- deleteNews: the delete, then clearCache, then affectedRows > 0; on failure
the catch rethrows before clearCache runs. -/
def deleteNews (cache : Cache) (db : DB) (_now : Nat) (i : Nat)
    (qFails : Bool) : WriteResult Bool :=
  if qFails then { ret := Except.error (), cache := cache, db := db }
  else
    let r := deleteNewsRows db i
    { ret := Except.ok (decide (0 < r.2)), cache := clearCache cache, db := r.1 }

/-- View count of the first news row with the given id, when one exists. -/
def viewCountOf (db : DB) (i : Nat) : Option Nat :=
  (db.news.find? (fun n => n.id == i)).map (fun n => n.view_count)

/-! ## Environment switches (src/pages/api/mock-mode.ts)

env models the value of the corresponding process.env variable:
none when unset, some s when set to the string s. -/

/-- MOCK_MODE = process.env.NEXT_PUBLIC_MOCK_MODE === 'true' || true. -/
def MOCK_MODE (env : Option String) : Bool :=
  (env == some "true") || true

/-- DEBUG_MOCK = process.env.NEXT_PUBLIC_DEBUG_MOCK === 'true' || false. -/
def DEBUG_MOCK (env : Option String) : Bool :=
  (env == some "true") || false

/-! ## The POST branch of the /api/news route handler -/

/-- The destructured request body; none models an absent JSON property. -/
structure PostBody where
  title : Option String
  slug : Option String
  content : Option String
  excerpt : Option String
  imageUrl : Option String
  categoryId : Option Nat
  status : Option String
  isFeatured : Option Bool
deriving Repr, DecidableEq

/-- JavaScript truthiness of an optional string: undefined and the empty
string are falsy. -/
def falsyStr : Option String → Bool
  | none => true
  | some s => s == ""

/-- JavaScript truthiness of an optional number: undefined and 0 are falsy. -/
def falsyNat : Option Nat → Bool
  | none => true
  | some n => n == 0

/-- v || dflt on an optional string. -/
def orDefaultStr (v : Option String) (dflt : String) : String :=
  match v with
  | none => dflt
  | some s => if s == "" then dflt else s

/-- The synthesized mock identifier Math.floor(Math.random() * 1000) + 100;
rnd models the random draw. -/
def mockNewsId (rnd : Nat) : Nat := rnd % 1000 + 100

/-- The slice of the HTTP response the claims are about: status code, the
success flag of the envelope, and the returned news id when present. -/
structure HandlerResponse where
  statusCode : Nat
  success : Bool
  newsId : Option Nat
deriving Repr, DecidableEq

/-- The POST branch of the /api/news handler: authentication check, then
input validation, then the mock-mode branch, then the real insert whose
failure is caught and answered with 201, success:true and a synthesized id. -/
def handlePostNews (mockMode : Bool) (authed : Bool) (userId : Nat)
    (body : PostBody) (cache : Cache) (db : DB) (now : Nat) (rnd : Nat)
    (createFails : Bool) : HandlerResponse × Cache × DB :=
  if !authed then
    ({ statusCode := 401, success := false, newsId := none }, cache, db)
  else if falsyStr body.title || falsyStr body.slug || falsyStr body.content
      || falsyNat body.categoryId then
    ({ statusCode := 400, success := false, newsId := none }, cache, db)
  else if mockMode then
    ({ statusCode := 201, success := true, newsId := some (mockNewsId rnd) }, cache, db)
  else
    let d : NewsData :=
      { title := body.title.getD "", slug := body.slug.getD "",
        content := body.content.getD "",
        excerpt := orDefaultStr body.excerpt "",
        imageUrl := orDefaultStr body.imageUrl "",
        categoryId := body.categoryId.getD 0, authorId := userId,
        status := orDefaultStr body.status "draft",
        isFeatured := body.isFeatured.getD false }
    let r := createNews cache db now d createFails
    match r.ret with
    | Except.ok newId =>
        ({ statusCode := 201, success := true, newsId := some newId }, r.cache, r.db)
    | Except.error _ =>
        ({ statusCode := 201, success := true, newsId := some (mockNewsId rnd) }, r.cache, r.db)

/-! ## Concrete sample data used by the witness theorems -/

/-- A sample category row. -/
def sampleCat : CategoryRow := { id := 1, name := "Tech", slug := "tech", description := none }

/-- A sample user row. -/
def sampleUser : UserRow := { id := 1, name := "Ann" }

/-- A sample published news row. -/
def sampleRow : NewsRow :=
  { id := 1, title := "T", slug := "t-slug", content := "C", excerpt := "E",
    image_url := "img", category_id := 1, author_id := 1, status := "published",
    is_featured := false, view_count := 0, created_at := 0, updated_at := 0 }

/-- A sample store holding one published article. -/
def sampleDb : DB :=
  { news := [sampleRow], categories := [sampleCat], users := [sampleUser], nextId := 2 }

/-- The joined article the slug select produces from sampleDb. -/
def sampleArt : NewsArticle :=
  { id := 1, title := "T", slug := "t-slug", content := "C", excerpt := "E",
    image_url := "img", category_id := 1, author_id := 1, status := "published",
    is_featured := false, view_count := 0, created_at := 0, updated_at := 0,
    category_name := "Tech", author_name := "Ann" }

/-- A sample write payload. -/
def sampleData : NewsData :=
  { title := "N", slug := "n", content := "c", excerpt := "", imageUrl := "",
    categoryId := 1, authorId := 1, status := "draft", isFeatured := false }

/-- A sample valid POST body. -/
def sampleBody : PostBody :=
  { title := some "N", slug := some "n", content := some "c", excerpt := none,
    imageUrl := none, categoryId := some 1, status := none, isFeatured := none }

/-- Sample list options: limit 1, offset 0, no filters. -/
def sampleOpts : ListOptions :=
  { limit := some 1, offset := some 0, categoryId := none, featured := none,
    searchQuery := none }

/-- Sample list options: limit 5, offset 3, same (empty) filters. -/
def sampleOptsB : ListOptions :=
  { limit := some 5, offset := some 3, categoryId := none, featured := none,
    searchQuery := none }

/-! ## Helper lemmas -/

/-- Looking up the key just written finds the fresh entry. -/
theorem lookup_cacheSet_self (cache : Cache) (key : String) (p : CachePayload)
    (now : Nat) :
    List.lookup key (cacheSet cache key p now)
      = some { data := p, timestamp := now } := by
  simp [cacheSet, List.lookup]

/-- A key written at now1 is still valid at any now2 with now2 - now1 below
the TTL. -/
theorem isCacheValid_cacheSet_self (cache : Cache) (key : String)
    (p : CachePayload) (now1 now2 : Nat) (httl : now2 - now1 < CACHE_TTL) :
    isCacheValid (cacheSet cache key p now1) now2 key = true := by
  simp [isCacheValid, lookup_cacheSet_self, httl]

/-- The empty cache validates no key. -/
theorem isCacheValid_nil (now : Nat) (key : String) :
    isCacheValid [] now key = false := rfl

/-- A cache miss on a slug whose select returns a first row a: the row is
returned and cached, and the view-count update runs (or is swallowed). -/
theorem getNewsBySlug_miss_found (cache : Cache) (db : DB) (now : Nat)
    (slug : String) (a : NewsArticle) (rest : List NewsArticle) (incF : Bool)
    (hmiss : isCacheValid cache now ("news_" ++ slug) = false)
    (hsel : selectNewsBySlug db slug = a :: rest) :
    getNewsBySlug cache db now slug false incF
      = { ret := some a,
          cache := cacheSet cache ("news_" ++ slug)
            (CachePayload.newsItem (some a)) now,
          db := incrementViewCount db a.id incF, queries := 2 } := by
  simp [getNewsBySlug, hmiss, hsel]

/-- A cache miss on a slug whose select returns no row: null is returned and
cached, the store is untouched. -/
theorem getNewsBySlug_miss_absent (cache : Cache) (db : DB) (now : Nat)
    (slug : String) (incF : Bool)
    (hmiss : isCacheValid cache now ("news_" ++ slug) = false)
    (hsel : selectNewsBySlug db slug = []) :
    getNewsBySlug cache db now slug false incF
      = { ret := none,
          cache := cacheSet cache ("news_" ++ slug) (CachePayload.newsItem none) now,
          db := db, queries := 1 } := by
  simp [getNewsBySlug, hmiss, hsel]

/-- A slug read right after its key was cached, within the TTL: the cached
payload comes back with no backing-store call and no state change. -/
theorem getNewsBySlug_hit_after_set (cache : Cache) (db2 : DB)
    (now1 now2 : Nat) (slug : String) (v : Option NewsArticle) (sf incF : Bool)
    (httl : now2 - now1 < CACHE_TTL) :
    getNewsBySlug (cacheSet cache ("news_" ++ slug) (CachePayload.newsItem v) now1)
        db2 now2 slug sf incF
      = { ret := v,
          cache := cacheSet cache ("news_" ++ slug) (CachePayload.newsItem v) now1,
          db := db2, queries := 0 } := by
  simp [getNewsBySlug,
    isCacheValid_cacheSet_self cache ("news_" ++ slug)
      (CachePayload.newsItem v) now1 now2 httl,
    lookup_cacheSet_self, CachePayload.asNewsItem]

/-- Bumping the view count of every row with a given id bumps the looked-up
view count of that id by one. -/
theorem find_map_bump (i : Nat) (l : List NewsRow) :
    ((l.map (fun n =>
        if n.id == i then { n with view_count := n.view_count + 1 } else n)).find?
      (fun n => n.id == i)).map (fun n => n.view_count)
      = ((l.find? (fun n => n.id == i)).map (fun n => n.view_count)).map
          (fun v => v + 1) := by
  induction l with
  | nil => rfl
  | cons n t ih =>
      cases h : (n.id == i) with
      | true =>
          have hf : (if (n.id == i) = true then
              { n with view_count := n.view_count + 1 } else n)
              = { n with view_count := n.view_count + 1 } := by simp [h]
          rw [List.map_cons, hf, List.find?_cons_of_pos _ (by simp [h]),
            List.find?_cons_of_pos _ (by simpa using h)]
          simp
      | false =>
          have hf : (if (n.id == i) = true then
              { n with view_count := n.view_count + 1 } else n) = n := by simp [h]
          rw [List.map_cons, hf, List.find?_cons_of_neg _ (by simp [h]),
            List.find?_cons_of_neg _ (by simp [h])]
          exact ih

/-- The view-count update bumps the looked-up view count of that id by one. -/
theorem viewCountOf_increment (db : DB) (i : Nat) :
    viewCountOf (incrementViewCount db i false) i
      = (viewCountOf db i).map (fun v => v + 1) := by
  unfold viewCountOf incrementViewCount
  rw [if_neg (by simp : ¬((false : Bool) = true))]
  exact find_map_bump i db.news

/-! ## Claims -/

/-- C1: every successful write (createNews, updateNews, deleteNews) clears the
entire cache, and every read issued against the cleared (empty) cache goes to
the backing store and returns the value freshly computed from the current
store — so no post-write read can return data cached before the write. -/
theorem writeClearsCacheReadsGoToStore
    (cache : Cache) (db : DB) (now : Nat) (d : NewsData) (i : Nat)
    (db2 : DB) (now2 : Nat) (o : ListOptions) (slug : String) :
    (createNews cache db now d false).cache = [] ∧
    (updateNews cache db now i d false).cache = [] ∧
    (deleteNews cache db now i false).cache = [] ∧
    (getNewsList [] db2 now2 o false false).ret
      = (listSelect db2 o.categoryId (o.featured.getD false) o.searchQuery
          (o.limit.getD 10) (o.offset.getD 0),
         countNews db2 o.categoryId (o.featured.getD false) o.searchQuery) ∧
    0 < (getNewsList [] db2 now2 o false false).queries ∧
    (getCategories [] db2 now2 false).ret = categoriesWithCount db2 ∧
    0 < (getCategories [] db2 now2 false).queries ∧
    (getNewsBySlug [] db2 now2 slug false false).ret
      = (selectNewsBySlug db2 slug).head? ∧
    0 < (getNewsBySlug [] db2 now2 slug false false).queries := by
  refine ⟨rfl, rfl, rfl, ?_, ?_, ?_, ?_, ?_, ?_⟩
  · simp [getNewsList, isCacheValid_nil]
  · simp [getNewsList, isCacheValid_nil]
  · simp [getCategories, isCacheValid_nil]
  · simp [getCategories, isCacheValid_nil]
  · cases hl : selectNewsBySlug db2 slug with
    | nil =>
        rw [getNewsBySlug_miss_absent [] db2 now2 slug false (isCacheValid_nil _ _) hl]
        simp
    | cons a t =>
        rw [getNewsBySlug_miss_found [] db2 now2 slug a t false (isCacheValid_nil _ _) hl]
        simp
  · cases hl : selectNewsBySlug db2 slug with
    | nil =>
        rw [getNewsBySlug_miss_absent [] db2 now2 slug false (isCacheValid_nil _ _) hl]
        simp
    | cons a t =>
        rw [getNewsBySlug_miss_found [] db2 now2 slug a t false (isCacheValid_nil _ _) hl]
        simp

/-- C2: for a slug whose select finds a published article, a getNewsBySlug
call that misses the cache followed by a second call within the TTL window
returns the same payload both times and bumps the view count of that article
by exactly one across the two calls (so at most one, not two). -/
theorem slugReadSecondCallCachedSingleIncrement
    (cache : Cache) (db : DB) (now1 now2 : Nat) (slug : String)
    (a : NewsArticle) (rest : List NewsArticle)
    (hmiss : isCacheValid cache now1 ("news_" ++ slug) = false)
    (hsel : selectNewsBySlug db slug = a :: rest)
    (httl : now2 - now1 < CACHE_TTL) :
    (getNewsBySlug cache db now1 slug false false).ret = some a ∧
    (getNewsBySlug (getNewsBySlug cache db now1 slug false false).cache
        (getNewsBySlug cache db now1 slug false false).db now2 slug false false).ret
      = some a ∧
    viewCountOf
      (getNewsBySlug (getNewsBySlug cache db now1 slug false false).cache
        (getNewsBySlug cache db now1 slug false false).db now2 slug false false).db
      a.id
      = (viewCountOf db a.id).map (fun v => v + 1) := by
  rw [getNewsBySlug_miss_found cache db now1 slug a rest false hmiss hsel]
  rw [getNewsBySlug_hit_after_set cache (incrementViewCount db a.id false)
    now1 now2 slug (some a) false false httl]
  exact ⟨rfl, rfl, viewCountOf_increment db a.id⟩

/-- Witness for C2 at a concrete store with one published article. -/
theorem slugReadSecondCallCachedSingleIncrement_witness :
    isCacheValid [] 0 ("news_" ++ "t-slug") = false ∧
    selectNewsBySlug sampleDb "t-slug" = sampleArt :: [] ∧
    (0 : Nat) - 0 < CACHE_TTL ∧
    ((getNewsBySlug [] sampleDb 0 "t-slug" false false).ret = some sampleArt ∧
     (getNewsBySlug (getNewsBySlug [] sampleDb 0 "t-slug" false false).cache
        (getNewsBySlug [] sampleDb 0 "t-slug" false false).db 0 "t-slug" false false).ret
       = some sampleArt ∧
     viewCountOf
       (getNewsBySlug (getNewsBySlug [] sampleDb 0 "t-slug" false false).cache
         (getNewsBySlug [] sampleDb 0 "t-slug" false false).db 0 "t-slug" false false).db
       sampleArt.id
       = (viewCountOf sampleDb sampleArt.id).map (fun v => v + 1)) :=
  ⟨by decide, by decide, by decide,
    slugReadSecondCallCachedSingleIncrement [] sampleDb 0 0 "t-slug" sampleArt []
      (by decide) (by decide) (by decide)⟩

/-- C3: a backing-store error raised during a read (on a cache miss, so the
store is actually consulted) is caught by the service and surfaces as no data:
getNewsBySlug returns none, getNewsList returns the empty list with total 0,
getCategories returns the empty list. -/
theorem readErrorsReturnNoData
    (cache : Cache) (db : DB) (now : Nat) (slug : String) (o : ListOptions)
    (incF sf cf : Bool)
    (h1 : isCacheValid cache now ("news_" ++ slug) = false)
    (h2 : isCacheValid cache now (listCacheKey o) = false)
    (h3 : isCacheValid cache now "categories" = false)
    (hf : sf = true ∨ cf = true) :
    (getNewsBySlug cache db now slug true incF).ret = none ∧
    (getNewsList cache db now o sf cf).ret = ([], 0) ∧
    (getCategories cache db now true).ret = [] := by
  refine ⟨?_, ?_, ?_⟩
  · simp [getNewsBySlug, h1]
  · cases sf with
    | true => simp [getNewsList, h2]
    | false =>
        cases hf with
        | inl h => exact absurd h (by simp)
        | inr h => subst h; simp [getNewsList, h2]
  · simp [getCategories, h3]

/-- Witness for C3 on the empty cache with the select query failing. -/
theorem readErrorsReturnNoData_witness :
    isCacheValid [] 0 ("news_" ++ "x") = false ∧
    isCacheValid [] 0 (listCacheKey sampleOpts) = false ∧
    isCacheValid [] 0 "categories" = false ∧
    ((true : Bool) = true ∨ (false : Bool) = true) ∧
    ((getNewsBySlug [] sampleDb 0 "x" true false).ret = none ∧
     (getNewsList [] sampleDb 0 sampleOpts true false).ret = ([], 0) ∧
     (getCategories [] sampleDb 0 true).ret = []) :=
  ⟨rfl, rfl, rfl, Or.inl rfl,
    readErrorsReturnNoData [] sampleDb 0 "x" sampleOpts false true false
      rfl rfl rfl (Or.inl rfl)⟩

/-- C4: when no news row has the given id, updateNews and deleteNews succeed
with the value false instead of raising an error. -/
theorem missingIdReturnsFalse
    (cache : Cache) (db : DB) (now : Nat) (i : Nat) (d : NewsData)
    (h : ∀ n ∈ db.news, n.id ≠ i) :
    (updateNews cache db now i d false).ret = Except.ok false ∧
    (deleteNews cache db now i false).ret = Except.ok false := by
  have hfil : db.news.filter (fun n => n.id == i) = [] := by
    rw [List.filter_eq_nil_iff]
    intro a ha
    simp [h a ha]
  constructor
  · simp [updateNews, updateNewsRows, hfil]
  · simp [deleteNews, deleteNewsRows, hfil]

/-- Witness for C4 at id 99, absent from the sample store. -/
theorem missingIdReturnsFalse_witness :
    (∀ n ∈ sampleDb.news, n.id ≠ 99) ∧
    ((updateNews [] sampleDb 0 99 sampleData false).ret = Except.ok false ∧
     (deleteNews [] sampleDb 0 99 false).ret = Except.ok false) :=
  ⟨by decide, missingIdReturnsFalse [] sampleDb 0 99 sampleData (by decide)⟩

/-- C5: for fixed filter parameters (categoryId, featured, searchQuery) and a
fixed store, the total returned by getNewsList (on reads that reach the store)
does not depend on limit and offset. -/
theorem totalInvariantUnderPagination
    (cache : Cache) (db : DB) (now : Nat) (o oB : ListOptions)
    (hcat : o.categoryId = oB.categoryId) (hfeat : o.featured = oB.featured)
    (hq : o.searchQuery = oB.searchQuery)
    (h1 : isCacheValid cache now (listCacheKey o) = false)
    (h2 : isCacheValid cache now (listCacheKey oB) = false) :
    (getNewsList cache db now o false false).ret.2
      = (getNewsList cache db now oB false false).ret.2 := by
  simp [getNewsList, h1, h2, hcat, hfeat, hq]

/-- Witness for C5: limit 1 / offset 0 versus limit 5 / offset 3. -/
theorem totalInvariantUnderPagination_witness :
    sampleOpts.categoryId = sampleOptsB.categoryId ∧
    sampleOpts.featured = sampleOptsB.featured ∧
    sampleOpts.searchQuery = sampleOptsB.searchQuery ∧
    isCacheValid [] 0 (listCacheKey sampleOpts) = false ∧
    isCacheValid [] 0 (listCacheKey sampleOptsB) = false ∧
    (getNewsList [] sampleDb 0 sampleOpts false false).ret.2
      = (getNewsList [] sampleDb 0 sampleOptsB false false).ret.2 :=
  ⟨rfl, rfl, rfl, rfl, rfl,
    totalInvariantUnderPagination [] sampleDb 0 sampleOpts sampleOptsB
      rfl rfl rfl rfl rfl⟩

/-- C6: the debug switch follows its environment variable, but MOCK_MODE
evaluates to true for every environment value — including the value false and
the unset case — so no environment-variable setting disables mock mode; the
or-true defeats the override the adjacent comment promises. -/
theorem mockModeCannotBeDisabledByEnv :
    MOCK_MODE (some "false") = true ∧ MOCK_MODE none = true ∧
    (∀ env : Option String, MOCK_MODE env = true) ∧
    DEBUG_MOCK none = false ∧ DEBUG_MOCK (some "true") = true := by
  refine ⟨by decide, by decide, fun env => ?_, by decide, by decide⟩
  simp [MOCK_MODE]

/-- C7: a POST /api/news request that is authenticated and valid, with mock
mode off, whose backing-store insert fails, is answered 201 with success true
and the synthesized mock identifier, and the store is left unchanged. -/
theorem createFailureAnswers201MockId
    (authed : Bool) (userId : Nat) (body : PostBody) (cache : Cache) (db : DB)
    (now rnd : Nat)
    (hauth : authed = true)
    (htitle : falsyStr body.title = false) (hslug : falsyStr body.slug = false)
    (hcontent : falsyStr body.content = false)
    (hcat : falsyNat body.categoryId = false) :
    (handlePostNews false authed userId body cache db now rnd true).1
      = { statusCode := 201, success := true, newsId := some (mockNewsId rnd) } ∧
    (handlePostNews false authed userId body cache db now rnd true).2.2 = db := by
  subst hauth
  simp [handlePostNews, htitle, hslug, hcontent, hcat, createNews]

/-- Witness for C7 with a concrete valid body and random draw 7. -/
theorem createFailureAnswers201MockId_witness :
    (true : Bool) = true ∧
    falsyStr sampleBody.title = false ∧ falsyStr sampleBody.slug = false ∧
    falsyStr sampleBody.content = false ∧
    falsyNat sampleBody.categoryId = false ∧
    ((handlePostNews false true 1 sampleBody [] sampleDb 0 7 true).1
       = { statusCode := 201, success := true, newsId := some (mockNewsId 7) } ∧
     (handlePostNews false true 1 sampleBody [] sampleDb 0 7 true).2.2 = sampleDb) :=
  ⟨rfl, by decide, by decide, by decide, by decide,
    createFailureAnswers201MockId true 1 sampleBody [] sampleDb 0 7
      rfl (by decide) (by decide) (by decide) (by decide)⟩

/-- C8: a slug matching no published article has null cached under its key by
the first (missing) call, the store is untouched, and a second call within the
TTL returns none with zero backing-store calls and the state unchanged,
whatever the failure flags of the second call would have been. -/
theorem absentSlugCachedNullNoRequery
    (cache : Cache) (db : DB) (now1 now2 : Nat) (slug : String)
    (incF sf2 incF2 : Bool)
    (hmiss : isCacheValid cache now1 ("news_" ++ slug) = false)
    (hsel : selectNewsBySlug db slug = [])
    (httl : now2 - now1 < CACHE_TTL) :
    (getNewsBySlug cache db now1 slug false incF).ret = none ∧
    (getNewsBySlug cache db now1 slug false incF).db = db ∧
    List.lookup ("news_" ++ slug) (getNewsBySlug cache db now1 slug false incF).cache
      = some { data := CachePayload.newsItem none, timestamp := now1 } ∧
    getNewsBySlug (getNewsBySlug cache db now1 slug false incF).cache db now2 slug sf2 incF2
      = { ret := none,
          cache := (getNewsBySlug cache db now1 slug false incF).cache,
          db := db, queries := 0 } := by
  rw [getNewsBySlug_miss_absent cache db now1 slug incF hmiss hsel]
  exact ⟨rfl, rfl, lookup_cacheSet_self _ _ _ _,
    getNewsBySlug_hit_after_set cache db now1 now2 slug none sf2 incF2 httl⟩

/-- Witness for C8 at a slug absent from the sample store. -/
theorem absentSlugCachedNullNoRequery_witness :
    isCacheValid [] 0 ("news_" ++ "nope") = false ∧
    selectNewsBySlug sampleDb "nope" = [] ∧
    (0 : Nat) - 0 < CACHE_TTL ∧
    ((getNewsBySlug [] sampleDb 0 "nope" false false).ret = none ∧
     (getNewsBySlug [] sampleDb 0 "nope" false false).db = sampleDb ∧
     List.lookup ("news_" ++ "nope") (getNewsBySlug [] sampleDb 0 "nope" false false).cache
       = some { data := CachePayload.newsItem none, timestamp := 0 } ∧
     getNewsBySlug (getNewsBySlug [] sampleDb 0 "nope" false false).cache sampleDb 0 "nope" true true
       = { ret := none,
           cache := (getNewsBySlug [] sampleDb 0 "nope" false false).cache,
           db := sampleDb, queries := 0 }) :=
  ⟨by decide, by decide, by decide,
    absentSlugCachedNullNoRequery [] sampleDb 0 0 "nope" false true true
      (by decide) (by decide) (by decide)⟩

/-- C9: a failing view-count update is swallowed inside incrementViewCount
(the store is returned unchanged), and getNewsBySlug still returns the fetched
article. -/
theorem incrementFailureSwallowed
    (cache : Cache) (db : DB) (now : Nat) (slug : String)
    (a : NewsArticle) (rest : List NewsArticle)
    (hmiss : isCacheValid cache now ("news_" ++ slug) = false)
    (hsel : selectNewsBySlug db slug = a :: rest) :
    (getNewsBySlug cache db now slug false true).ret = some a ∧
    (getNewsBySlug cache db now slug false true).db = db ∧
    (∀ (db0 : DB) (i : Nat), incrementViewCount db0 i true = db0) := by
  rw [getNewsBySlug_miss_found cache db now slug a rest true hmiss hsel]
  exact ⟨rfl, rfl, fun db0 i => rfl⟩

/-- Witness for C9 on the sample store. -/
theorem incrementFailureSwallowed_witness :
    isCacheValid [] 0 ("news_" ++ "t-slug") = false ∧
    selectNewsBySlug sampleDb "t-slug" = sampleArt :: [] ∧
    ((getNewsBySlug [] sampleDb 0 "t-slug" false true).ret = some sampleArt ∧
     (getNewsBySlug [] sampleDb 0 "t-slug" false true).db = sampleDb ∧
     (∀ (db0 : DB) (i : Nat), incrementViewCount db0 i true = db0)) :=
  ⟨by decide, by decide,
    incrementFailureSwallowed [] sampleDb 0 "t-slug" sampleArt []
      (by decide) (by decide)⟩

/-- C10: a write whose backing-store call fails returns the error and leaves
both the cache and the store exactly as they were: the rethrow happens before
clearCache runs. -/
theorem writeFailureLeavesCacheIntact
    (cache : Cache) (db : DB) (now i : Nat) (d : NewsData) :
    createNews cache db now d true
      = { ret := Except.error (), cache := cache, db := db } ∧
    updateNews cache db now i d true
      = { ret := Except.error (), cache := cache, db := db } ∧
    deleteNews cache db now i true
      = { ret := Except.error (), cache := cache, db := db } :=
  ⟨rfl, rfl, rfl⟩

end JornalK1
